import Mathlib

/-!
Verification of the RISC II emulator core against its specification.

Machine integers are modelled as `Nat` with explicit wrapping (`% 256`,
`% 65536`, `% 2^32`) at the operations where the Rust source relies on
fixed-width behaviour.  Fallible Rust code (`Result`) is modelled with
`Except Unit` (the source's error payloads are formatted message strings,
which no caller inspects); Rust indexing that can panic is modelled with
`Option` (`none` = panic).
-/

namespace Riscii

/-- Coercion of a boolean to its numeric value, as Rust `b as u16`/`b as u32`. -/
def b2n (b : Bool) : Nat := if b then 1 else 0

/-- Bitwise NOT on a 16-bit word, as Rust `!x` on `u16`. -/
def not16 (x : Nat) : Nat := x ^^^ 0xFFFF

/-! ## cpu.rs: constants -/

/-- cpu.rs: the number of register windows the RISCII supports. -/
def NUM_REG_WINDOWS : Nat := 8

/-- cpu.rs: the number of local registers per window. -/
def NUM_LOCALS : Nat := 10

/-- cpu.rs: registers shared with the previous register window. -/
def NUM_SHARED_PREV : Nat := 6

/-- cpu.rs: registers shared with the next register window. -/
def NUM_SHARED_NEXT : Nat := 6

/-- cpu.rs: the number of registers per window. -/
def WINDOW_SIZE : Nat := NUM_LOCALS + NUM_SHARED_PREV + NUM_SHARED_NEXT

/-- cpu.rs: number of global registers. -/
def NUM_GLOBALS : Nat := 10

/-- cpu.rs: registers that adding a window adds to the total. -/
def NUM_ADDED_PER_WINDOW : Nat := NUM_LOCALS + NUM_SHARED_NEXT

/-- cpu.rs: number of general purpose registers in `window_regs`. -/
def NUM_WINDOW_REGISTERS : Nat := NUM_REG_WINDOWS * NUM_ADDED_PER_WINDOW

/-- cpu.rs: location of the interrupt bit in the PSW. -/
def INTERRUPT_LOC : Nat := 1 <<< 6

/-- cpu.rs: location of the system mode bit in the PSW. -/
def SYSTEM_LOC : Nat := 1 <<< 5

/-- cpu.rs: location of the previous system mode bit in the PSW. -/
def PREV_SYSTEM_LOC : Nat := 1 <<< 4

/-- cpu.rs: location of the zero bit in the PSW. -/
def ZERO_LOC : Nat := 1 <<< 3

/-- cpu.rs: location of the negative bit in the PSW. -/
def NEG_LOC : Nat := 1 <<< 2

/-- cpu.rs: location of the overflow bit in the PSW. -/
def OVERFLOW_LOC : Nat := 1 <<< 1

/-- cpu.rs: location of the carry bit in the PSW. -/
def CARRY_LOC : Nat := 1

/-- cpu.rs: location of the saved window pointer bits in the PSW. -/
def SWP_LOC : Nat := 0x7 <<< 7

/-- cpu.rs: location of the current window pointer bits in the PSW. -/
def CWP_LOC : Nat := 0x7 <<< 10

/-- cpu.rs: location of the processor status word in its 16-bit cell. -/
def PSW_LOC : Nat := 0x1fff

/-! ## cpu.rs: ProcessorStatusWord -/

/-- cpu.rs: `pub struct ProcessorStatusWord(u16)`; the packed 13-bit PSW. -/
structure ProcessorStatusWord where
  val : Nat
deriving DecidableEq

namespace ProcessorStatusWord

/-- cpu.rs `ProcessorStatusWord::new`: a zeroed PSW. -/
def new : ProcessorStatusWord := ⟨0⟩

/-- cpu.rs `ProcessorStatusWord::from_u16`. -/
def from_u16 (v : Nat) : ProcessorStatusWord := ⟨v⟩

/-- cpu.rs `ProcessorStatusWord::init`: pack the fields. -/
def init (cwp swp : Nat)
    (interrupts_enabled previous_system_mode system_mode
     cc_zero cc_neg cc_overflow cc_carry : Bool) : ProcessorStatusWord :=
  ⟨((cwp &&& 0x7) <<< 10) |||
   ((swp &&& 0x7) <<< 7) |||
   (b2n interrupts_enabled <<< 6) |||
   (b2n system_mode <<< 5) |||
   (b2n previous_system_mode <<< 4) |||
   (b2n cc_zero <<< 3) |||
   (b2n cc_neg <<< 2) |||
   (b2n cc_overflow <<< 1) |||
   b2n cc_carry⟩

/-- cpu.rs `ProcessorStatusWord::get`. -/
def get (p : ProcessorStatusWord) : Nat := p.val

/-- cpu.rs `get_cwp`: `((self.0 & CWP_LOC) >> 10) as u8`. -/
def get_cwp (p : ProcessorStatusWord) : Nat := (p.val &&& CWP_LOC) >>> 10

/-- cpu.rs `get_swp`: `((self.0 & SWP_LOC) as u8) >> 7`.  The cast to `u8`
happens before the shift, so only bit 7 of the word survives (`% 256`). -/
def get_swp (p : ProcessorStatusWord) : Nat := ((p.val &&& SWP_LOC) % 256) >>> 7

/-- cpu.rs `set_swp`: `((self.0 & !SWP_LOC) | ((v % 8) << 7) as u16) & PSW_LOC`.
The shift `(v % 8) << 7` is performed at type `u8`, hence the `% 256`. -/
def set_swp (p : ProcessorStatusWord) (v : Nat) : ProcessorStatusWord :=
  ⟨((p.val &&& not16 SWP_LOC) ||| (((v % NUM_REG_WINDOWS) <<< 7) % 256)) &&& PSW_LOC⟩

/-- cpu.rs `push`: `let cwp = self.get_cwp() - 1;` (u8 subtraction, modelled
wrapping; Rust would panic in a debug build when CWP = 0), then bump SWP when
the decremented value collides with it.  CWP itself is never written. -/
def push (p : ProcessorStatusWord) : ProcessorStatusWord :=
  let cwp := (p.get_cwp + 255) % 256
  let swp := p.get_swp
  if cwp = swp then p.set_swp ((swp + 1) % 256) else p

/-- cpu.rs `pop`: `let cwp = self.get_cwp() + 1;` then decrement SWP when the
incremented value collides with it.  CWP itself is never written. -/
def pop (p : ProcessorStatusWord) : ProcessorStatusWord :=
  let cwp := (p.get_cwp + 1) % 256
  let swp := p.get_swp
  if cwp = swp then p.set_swp ((swp + 255) % 256) else p

/-- cpu.rs `set_cc_overflow`: `(self.0 & !OVERFLOW_LOC) | ((value as u16) << OVERFLOW_LOC)`.
Note the source shifts by the mask value `OVERFLOW_LOC`, not by the bit index. -/
def set_cc_overflow (p : ProcessorStatusWord) (value : Bool) : ProcessorStatusWord :=
  ⟨(p.val &&& not16 OVERFLOW_LOC) ||| (b2n value <<< OVERFLOW_LOC)⟩

/-- cpu.rs `set_cc_carry`: `(self.0 & !CARRY_LOC) | ((value as u16) << CARRY_LOC)`. -/
def set_cc_carry (p : ProcessorStatusWord) (value : Bool) : ProcessorStatusWord :=
  ⟨(p.val &&& not16 CARRY_LOC) ||| (b2n value <<< CARRY_LOC)⟩

/-- cpu.rs `set_cc_zero`: `(self.0 & !ZERO_LOC) | ((value as u16) << ZERO_LOC)`. -/
def set_cc_zero (p : ProcessorStatusWord) (value : Bool) : ProcessorStatusWord :=
  ⟨(p.val &&& not16 ZERO_LOC) ||| (b2n value <<< ZERO_LOC)⟩

/-- cpu.rs `set_cc_neg`: `(self.0 & !NEG_LOC) | ((value as u16) << NEG_LOC)`. -/
def set_cc_neg (p : ProcessorStatusWord) (value : Bool) : ProcessorStatusWord :=
  ⟨(p.val &&& not16 NEG_LOC) ||| (b2n value <<< NEG_LOC)⟩

/-- cpu.rs `get_cc_overflow`: `(self.0 & OVERFLOW_LOC) != 0`. -/
def get_cc_overflow (p : ProcessorStatusWord) : Bool := (p.val &&& OVERFLOW_LOC) != 0

/-- cpu.rs `get_cc_carry`: `(self.0 & CARRY_LOC) != 0`. -/
def get_cc_carry (p : ProcessorStatusWord) : Bool := (p.val &&& CARRY_LOC) != 0

/-- cpu.rs `get_cc_zero`: `(self.0 & ZERO_LOC) != 0`. -/
def get_cc_zero (p : ProcessorStatusWord) : Bool := (p.val &&& ZERO_LOC) != 0

/-- cpu.rs `get_cc_neg`: `(self.0 & NEG_LOC) != 0`. -/
def get_cc_neg (p : ProcessorStatusWord) : Bool := (p.val &&& NEG_LOC) != 0

/-- cpu.rs `get_system_mode`: `(self.0 & SYSTEM_LOC) != 0`. -/
def get_system_mode (p : ProcessorStatusWord) : Bool := (p.val &&& SYSTEM_LOC) != 0

/-- cpu.rs `get_previous_system_mode`: `(self.0 & PREV_SYSTEM_LOC) != 0`. -/
def get_previous_system_mode (p : ProcessorStatusWord) : Bool :=
  (p.val &&& PREV_SYSTEM_LOC) != 0

/-- cpu.rs `get_interrupt_enabled`: `(self.0 & INTERRUPT_LOC) != 0`. -/
def get_interrupt_enabled (p : ProcessorStatusWord) : Bool :=
  (p.val &&& INTERRUPT_LOC) != 0

end ProcessorStatusWord

/-! ## cpu.rs: RegisterFile -/

/-- Rust panicking write `l[i] = v`: `none` models the out-of-bounds panic. -/
def setIdx? (l : List Nat) (i v : Nat) : Option (List Nat) :=
  if i < l.length then some (l.set i v) else none

/-- cpu.rs: `pub struct RegisterFile([u32; NUM_GLOBALS + NUM_WINDOW_REGISTERS])`.
Modelled as a list; `RegisterFile.new` produces the 138-element array. -/
structure RegisterFile where
  regs : List Nat
deriving DecidableEq

namespace RegisterFile

/-- cpu.rs `RegisterFile::new`: a zeroed register file. -/
def new : RegisterFile := ⟨List.replicate (NUM_GLOBALS + NUM_WINDOW_REGISTERS) 0⟩

/-- cpu.rs `RegisterFile::get_real_address`: globals pass through, window
registers map to `NUM_ADDED_PER_WINDOW * cwp + addr + NUM_GLOBALS`, anything
above 31 is an error.  (`&self` is unused in the source.) -/
def get_real_address (address cwp : Nat) : Except Unit Nat :=
  if address ≤ 9 then .ok address
  else if address ≤ 31 then .ok (NUM_ADDED_PER_WINDOW * cwp + address + NUM_GLOBALS)
  else .error ()

/-- cpu.rs `RegisterFile::read`: `self.0[a]` on success (Rust panics when the
real address exceeds the array, modelled by `none`), 0 on address error. -/
def read (rf : RegisterFile) (address cwp : Nat) : Option Nat :=
  match get_real_address address cwp with
  | .ok a => rf.regs.get? a
  | .error _ => some 0

/-- cpu.rs `RegisterFile::write`: store on success, no-op on address error,
then unconditionally `self.0[0] = 0`. -/
def write (rf : RegisterFile) (address value cwp : Nat) : Option RegisterFile :=
  let step : Option (List Nat) :=
    match get_real_address address cwp with
    | .ok a => setIdx? rf.regs a value
    | .error _ => some rf.regs
  step.bind fun l => (setIdx? l 0 0).map fun l2 => ⟨l2⟩

end RegisterFile

/-! ## memory.rs: Memory -/

/-- Modelled from the spec: `check_word_alignment` is imported from util.rs by
memory.rs but is missing from src/ (util.rs does not define it).  Spec section
4.1: "Fails with Misaligned when ... get_word/set_word receive a & 3 ≠ 0". -/
def check_word_alignment (addr : Nat) : Except Unit Unit :=
  if addr &&& 3 ≠ 0 then .error () else .ok ()

/-- Modelled from the spec: `check_hword_alignment` is imported from util.rs by
memory.rs but is missing from src/.  Spec section 4.1: "Fails with Misaligned
when get_hword/set_hword receive a & 1 ≠ 0". -/
def check_hword_alignment (addr : Nat) : Except Unit Unit :=
  if addr &&& 1 ≠ 0 then .error () else .ok ()

/-- Rust slice `l[a..b]`: `none` models the panic when the range is invalid. -/
def sliceList? (l : List Nat) (a b : Nat) : Option (List Nat) :=
  if a ≤ b ∧ b ≤ l.length then some ((l.drop a).take (b - a)) else none

/-- Rust `TryInto` from a byte slice to `[u8; 2]`: errors unless the slice has
exactly two elements. -/
def tryInto2 (l : List Nat) : Except Unit (Nat × Nat) :=
  match l with
  | [a, b] => .ok (a, b)
  | _ => .error ()

/-- memory.rs: `pub struct Memory(Vec<u8>)`. -/
structure Memory where
  bytes : List Nat
deriving DecidableEq

namespace Memory

/-- memory.rs `Memory::from_size`: zero-filled memory of the given size. -/
def from_size (size : Nat) : Memory := ⟨List.replicate size 0⟩

/-- memory.rs `Memory::get_byte`: bounds check, then read one byte. -/
def get_byte (m : Memory) (addr : Nat) : Except Unit Nat :=
  if addr ≥ m.bytes.length then .error ()
  else .ok (m.bytes.getD addr 0)

/-- memory.rs `Memory::get_hword`: half-word alignment check, bounds check,
then `u16::from_be_bytes(self.0[addr..addr + 1].try_into()?)`.  The slice is
one byte long, so the conversion to a two-byte array always fails and the
`?` operator propagates the error. -/
def get_hword (m : Memory) (addr : Nat) : Except Unit Nat := do
  let _ ← check_hword_alignment addr
  if addr ≥ m.bytes.length then .error ()
  else
    match sliceList? m.bytes addr (addr + 1) with
    | none => .error ()
    | some l => do
      let p ← tryInto2 l
      .ok ((p.1 <<< 8) ||| p.2)

/-- memory.rs `Memory::get_word`: word alignment check, bounds check on the
start address only, then a big-endian read of `self.0[addr..addr + 4]`.  Rust
panics when `addr + 4` runs past the end (only `addr` itself was checked);
`none` models that panic. -/
def get_word (m : Memory) (addr : Nat) : Option (Except Unit Nat) :=
  match check_word_alignment addr with
  | .error e => some (.error e)
  | .ok _ =>
    if addr ≥ m.bytes.length then some (.error ())
    else
      match sliceList? m.bytes addr (addr + 4) with
      | none => none
      | some [a, b, c, d] => some (.ok ((a <<< 24) ||| (b <<< 16) ||| (c <<< 8) ||| d))
      | some _ => some (.error ())

/-- memory.rs `Memory::set_word`: word alignment check, bound
`addr >= self.0.len() - 4` (usize arithmetic; for memories smaller than 4
bytes Rust would underflow and panic where this model reports the error),
then a big-endian 4-byte store returning the value written. -/
def set_word (m : Memory) (addr what : Nat) : Except Unit (Memory × Nat) := do
  let _ ← check_word_alignment addr
  if addr ≥ m.bytes.length - 4 then .error ()
  else
    let bs := m.bytes.set addr ((what >>> 24) &&& 0xFF)
    let bs := bs.set (addr + 1) ((what >>> 16) &&& 0xFF)
    let bs := bs.set (addr + 2) ((what >>> 8) &&& 0xFF)
    let bs := bs.set (addr + 3) (what &&& 0xFF)
    .ok (⟨bs⟩, what)

/-- memory.rs `Memory::set_hword`: the source checks *word* alignment here,
bound `addr >= self.0.len() - 2`, then a big-endian 2-byte store returning the
value written. -/
def set_hword (m : Memory) (addr what : Nat) : Except Unit (Memory × Nat) := do
  let _ ← check_word_alignment addr
  if addr ≥ m.bytes.length - 2 then .error ()
  else
    let bs := m.bytes.set addr ((what >>> 8) &&& 0xFF)
    let bs := bs.set (addr + 1) (what &&& 0xFF)
    .ok (⟨bs⟩, what)

/-- memory.rs `Memory::set_byte`: bounds check, then store one byte returning
the value written. -/
def set_byte (m : Memory) (addr what : Nat) : Except Unit (Memory × Nat) :=
  if addr ≥ m.bytes.length then .error ()
  else .ok (⟨m.bytes.set addr what⟩, what)

end Memory

/-! ## alu.rs and data_path.rs: SCCBits, ALU -/

/-- data_path.rs: `pub struct SCCBits` (z, n, v, c). -/
structure SCCBits where
  z : Bool
  n : Bool
  v : Bool
  c : Bool
deriving DecidableEq

/-- Size of the `u32` value space. -/
def u32Size : Nat := 4294967296

/-- Wrapping `u32` subtraction `a - b` (operands below `u32Size`). -/
def wsub (a b : Nat) : Nat := (a + u32Size - b) % u32Size

/-- The value of a `u32` bit pattern reinterpreted as `i32` (Rust `as i32`). -/
def toSigned (n : Nat) : Int :=
  if n < 2147483648 then (n : Int) else (n : Int) - (u32Size : Int)

/-- instruction.rs `SIGN_BIT_LOC` (bit 31). -/
def SIGN_BIT_LOC : Nat := 0x80000000

/-- alu.rs: `pub struct ALU` with the two input latches. -/
structure ALU where
  ai : Nat
  bi : Nat
deriving DecidableEq

namespace ALU

/-- alu.rs `ALU::new`. -/
def new : ALU := ⟨0, 0⟩

/-- alu.rs `add`: `self.ai + self.bi` (u32; wraps in a release build). -/
def add (a : ALU) : Nat := (a.ai + a.bi) % u32Size

/-- alu.rs `add_scc`: result plus z/n/v/c from the overflowing adds. -/
def add_scc (a : ALU) : Nat × SCCBits :=
  let isum := toSigned a.ai + toSigned a.bi
  let v := decide (isum < -2147483648 ∨ 2147483648 ≤ isum)
  let result := (a.ai + a.bi) % u32Size
  let c := decide (u32Size ≤ a.ai + a.bi)
  (result, ⟨decide (result = 0), decide (2147483648 ≤ result), c, v⟩)

/-- alu.rs `addc`: `self.ai + self.bi + (carry as u32)`. -/
def addc (a : ALU) (carry : Bool) : Nat := (a.ai + a.bi + b2n carry) % u32Size

/-- alu.rs `sub`: `self.ai - self.bi` (u32 wrapping). -/
def sub (a : ALU) : Nat := wsub a.ai a.bi

/-- alu.rs `sub_scc`: overflowing subtractions; C is the negated borrow. -/
def sub_scc (a : ALU) : Nat × SCCBits :=
  let idiff := toSigned a.ai - toSigned a.bi
  let v := decide (idiff < -2147483648 ∨ 2147483648 ≤ idiff)
  let result := wsub a.ai a.bi
  let c := decide (a.ai < a.bi)
  (result, ⟨decide (result = 0), decide (2147483648 ≤ result), !c, v⟩)

/-- alu.rs `subc`: `self.ai - self.bi + carry as u32` (u32 wrapping). -/
def subc (a : ALU) (carry : Bool) : Nat := (wsub a.ai a.bi + b2n carry) % u32Size

/-- alu.rs `subc_scc`: `(ai as i32 - bi as i32).overflowing_add(carry)` for
the signed part and `(ai - bi).overflowing_add(carry)` for the unsigned part;
C is the negated carry flag of that add. -/
def subc_scc (a : ALU) (carry : Bool) : Nat × SCCBits :=
  let d := wsub a.ai a.bi
  let isum := toSigned d + b2n carry
  let v := decide (isum < -2147483648 ∨ 2147483648 ≤ isum)
  let result := (d + b2n carry) % u32Size
  let c := decide (u32Size ≤ d + b2n carry)
  (result, ⟨decide (result = 0), decide (2147483648 ≤ result), !c, v⟩)

/-- alu.rs `subi`: `self.bi - self.ai` (u32 wrapping). -/
def subi (a : ALU) : Nat := wsub a.bi a.ai

/-- alu.rs `subi_scc`. -/
def subi_scc (a : ALU) : Nat × SCCBits :=
  let idiff := toSigned a.bi - toSigned a.ai
  let v := decide (idiff < -2147483648 ∨ 2147483648 ≤ idiff)
  let result := wsub a.bi a.ai
  let c := decide (a.bi < a.ai)
  (result, ⟨decide (result = 0), decide (2147483648 ≤ result), c, v⟩)

/-- alu.rs `subci`: `self.bi - self.ai - (!carry as u32)` (u32 wrapping). -/
def subci (a : ALU) (carry : Bool) : Nat :=
  wsub (wsub a.bi a.ai) (b2n !carry)

/-- alu.rs `subci_scc`: `(bi as i32 - ai as i32).overflowing_add(carry)` and
`(bi - ai).overflowing_add(carry)`; note the result *adds* the carry where
`subci` subtracts the negated carry. -/
def subci_scc (a : ALU) (carry : Bool) : Nat × SCCBits :=
  let d := wsub a.bi a.ai
  let isum := toSigned d + b2n carry
  let v := decide (isum < -2147483648 ∨ 2147483648 ≤ isum)
  let result := (d + b2n carry) % u32Size
  let c := decide (u32Size ≤ d + b2n carry)
  (result, ⟨decide (result = 0), decide (2147483648 ≤ result), c, v⟩)

end ALU

/-! ## instruction.rs: encoding side -/

/-- instruction.rs `SCC_LOC`. -/
def SCC_LOC : Nat := 0x1000000

/-- instruction.rs `DEST_LOC`. -/
def DEST_LOC : Nat := 0x00F80000

/-- instruction.rs `RS1_LOC`. -/
def RS1_LOC : Nat := 0x7c000

/-- instruction.rs `RS2_LOC`. -/
def RS2_LOC : Nat := 0x1f

/-- instruction.rs `IMM19_LOC`. -/
def IMM19_LOC : Nat := 0x7FFFF

/-- instruction.rs `SHORT_SOURCE_TYPE_LOC`. -/
def SHORT_SOURCE_TYPE_LOC : Nat := 0x2000

/-- instruction.rs `OPCODE_LOC`. -/
def OPCODE_LOC : Nat := 0xFE000000

/-- instruction.rs `SHORT_IMM_SIGN_LOC`. -/
def SHORT_IMM_SIGN_LOC : Nat := 0x1000

/-- instruction.rs `SHORT_IMM_SIGNEXT_BITS`. -/
def SHORT_IMM_SIGNEXT_BITS : Nat := 0xFFFFE000

namespace instruction

/-- instruction.rs: the conditionals the RISC II supports. -/
inductive Conditional
  | Gt | Le | Ge | Lt | Hi | Los | Lonc | Hisc | Pl | Mi | Ne | Eq | Nv | V | Alw
deriving DecidableEq

/-- instruction.rs: `ShortSource` is a register name or a 13-bit immediate. -/
inductive ShortSource
  | Reg (r : Nat)
  | Imm13 (v : Nat)
deriving DecidableEq

/-- instruction.rs: short instruction format data. -/
structure ShortInstruction where
  scc : Bool
  dest : Nat
  rs1 : Nat
  short_source : ShortSource
deriving DecidableEq

/-- instruction.rs: long instruction format data. -/
structure LongInstruction where
  scc : Bool
  dest : Nat
  imm19 : Nat
deriving DecidableEq

/-- instruction.rs: short conditional instruction format data. -/
structure ShortConditional where
  scc : Bool
  dest : Conditional
  rs1 : Nat
  short_source : ShortSource
deriving DecidableEq

/-- instruction.rs: long conditional instruction format data. -/
structure LongConditional where
  scc : Bool
  dest : Conditional
  imm19 : Nat
deriving DecidableEq

/-- instruction.rs: the RISC II instruction set (encoding side). -/
inductive Instruction
  | Calli (s : ShortInstruction)
  | GetPSW (s : ShortInstruction)
  | GetLPC (s : ShortInstruction)
  | PutPSW (s : ShortInstruction)
  | Callx (s : ShortInstruction)
  | Callr (l : LongInstruction)
  | Jmpx (s : ShortConditional)
  | Jmpr (l : LongConditional)
  | Ret (s : ShortConditional)
  | Reti (s : ShortConditional)
  | Sll (s : ShortInstruction)
  | Srl (s : ShortInstruction)
  | Sra (s : ShortInstruction)
  | Or (s : ShortInstruction)
  | And (s : ShortInstruction)
  | Xor (s : ShortInstruction)
  | Add (s : ShortInstruction)
  | Addc (s : ShortInstruction)
  | Sub (s : ShortInstruction)
  | Subc (s : ShortInstruction)
  | Subi (s : ShortInstruction)
  | Subci (s : ShortInstruction)
  | Ldhi (l : LongInstruction)
  | Ldxw (s : ShortInstruction)
  | Ldrw (l : LongInstruction)
  | Ldxhs (s : ShortInstruction)
  | Ldrhs (l : LongInstruction)
  | Ldxhu (s : ShortInstruction)
  | Ldrhu (l : LongInstruction)
  | Ldxbs (s : ShortInstruction)
  | Ldrbs (l : LongInstruction)
  | Ldxbu (s : ShortInstruction)
  | Ldrbu (l : LongInstruction)
  | Stxw (s : ShortInstruction)
  | Strw (l : LongInstruction)
  | Stxh (s : ShortInstruction)
  | Strh (l : LongInstruction)
  | Stxb (s : ShortInstruction)
  | Strb (l : LongInstruction)
deriving DecidableEq

/-- instruction.rs `get_opdata_from_cond`. -/
def get_opdata_from_cond : Conditional → Nat
  | .Gt => 1
  | .Le => 2
  | .Ge => 3
  | .Lt => 4
  | .Hi => 5
  | .Los => 6
  | .Lonc => 7
  | .Hisc => 8
  | .Pl => 9
  | .Mi => 10
  | .Ne => 11
  | .Eq => 12
  | .Nv => 13
  | .V => 14
  | .Alw => 15

/-- instruction.rs `ShortInstruction::encode`. -/
def ShortInstruction.encode (s : ShortInstruction) (opcode : Nat) : Nat :=
  let scc := if s.scc then SCC_LOC else 0
  let dest := s.dest <<< 19
  let rs1 := s.rs1 <<< 14
  let ss := match s.short_source with
    | .Reg r => (r, 0)
    | .Imm13 i => (i, SHORT_SOURCE_TYPE_LOC)
  (opcode <<< 25) ||| scc ||| dest ||| rs1 ||| ss.2 ||| ss.1

/-- instruction.rs `LongInstruction::encode`. -/
def LongInstruction.encode (l : LongInstruction) (opcode : Nat) : Nat :=
  let scc := if l.scc then SCC_LOC else 0
  let dest := l.dest <<< 19
  (opcode <<< 25) ||| scc ||| dest ||| l.imm19

/-- instruction.rs `ShortConditional::encode`. -/
def ShortConditional.encode (s : ShortConditional) (opcode : Nat) : Nat :=
  let scc := if s.scc then SCC_LOC else 0
  let dest := get_opdata_from_cond s.dest <<< 19
  let rs1 := s.rs1 <<< 14
  let ss := match s.short_source with
    | .Reg r => (r, 0)
    | .Imm13 i => (i, SHORT_SOURCE_TYPE_LOC)
  (opcode <<< 25) ||| scc ||| dest ||| rs1 ||| ss.2 ||| ss.1

/-- instruction.rs `LongConditional::encode`. -/
def LongConditional.encode (l : LongConditional) (opcode : Nat) : Nat :=
  let scc := if l.scc then SCC_LOC else 0
  let dest := get_opdata_from_cond l.dest <<< 19
  (opcode <<< 25) ||| scc ||| dest ||| l.imm19

/-- instruction.rs `Instruction::encode`: dispatch on the opcode table. -/
def Instruction.encode : Instruction → Nat
  | .Calli s => s.encode 0b0000001
  | .GetPSW s => s.encode 0b0000010
  | .PutPSW s => s.encode 0b0000100
  | .GetLPC s => s.encode 0b0000011
  | .Callx s => s.encode 0b0001000
  | .Sll s => s.encode 0b0010001
  | .Srl s => s.encode 0b0010011
  | .Sra s => s.encode 0b0010010
  | .Or s => s.encode 0b0010110
  | .And s => s.encode 0b0010101
  | .Xor s => s.encode 0b0010111
  | .Add s => s.encode 0b0011000
  | .Addc s => s.encode 0b0011001
  | .Sub s => s.encode 0b0011100
  | .Subc s => s.encode 0b0011101
  | .Subi s => s.encode 0b0011110
  | .Subci s => s.encode 0b0011111
  | .Ldxw s => s.encode 0b0100110
  | .Ldxhu s => s.encode 0b0101000
  | .Ldxhs s => s.encode 0b0101010
  | .Ldxbu s => s.encode 0b0101100
  | .Ldxbs s => s.encode 0b0101110
  | .Stxw s => s.encode 0b0110110
  | .Stxh s => s.encode 0b0111010
  | .Stxb s => s.encode 0b0111110
  | .Jmpx s => s.encode 0b0001100
  | .Ret s => s.encode 0b0001110
  | .Reti s => s.encode 0b0001111
  | .Jmpr l => l.encode 0b0001101
  | .Callr l => l.encode 0b0001001
  | .Ldhi l => l.encode 0b0010100
  | .Ldrw l => l.encode 0b0100111
  | .Ldrhu l => l.encode 0b0101001
  | .Ldrhs l => l.encode 0b0101011
  | .Ldrbu l => l.encode 0b0101101
  | .Ldrbs l => l.encode 0b0101111
  | .Strw l => l.encode 0b0110111
  | .Strh l => l.encode 0b0111011
  | .Strb l => l.encode 0b0111111

end instruction

namespace decode

/-- decode.rs: the conditionals (a type distinct from instruction.rs's). -/
inductive Conditional
  | Gt | Le | Ge | Lt | Hi | Los | Lonc | Hisc | Pl | Mi | Ne | Eq | Nv | V | Alw
deriving DecidableEq

/-- decode.rs: `ShortSource` with unsigned and signed immediate variants. -/
inductive ShortSource
  | Reg (r : Nat)
  | UImm13 (v : Nat)
  | SImm13 (v : Int)
deriving DecidableEq

/-- decode.rs: short instruction format data. -/
structure ShortInstruction where
  scc : Bool
  dest : Nat
  rs1 : Nat
  short_source : ShortSource
deriving DecidableEq

/-- decode.rs: long instruction format data. -/
structure LongInstruction where
  scc : Bool
  dest : Nat
  imm19 : Nat
deriving DecidableEq

/-- decode.rs: short conditional instruction format data. -/
structure ShortConditional where
  scc : Bool
  dest : Conditional
  rs1 : Nat
  short_source : ShortSource
deriving DecidableEq

/-- decode.rs: long conditional instruction format data. -/
structure LongConditional where
  scc : Bool
  dest : Conditional
  imm19 : Nat
deriving DecidableEq

/-- decode.rs: the RISC II instruction set (decoding side). -/
inductive Instruction
  | Calli (s : ShortInstruction)
  | GetPSW (s : ShortInstruction)
  | GetIPC (s : ShortInstruction)
  | PutPSW (s : ShortInstruction)
  | Callx (s : ShortInstruction)
  | Callr (l : LongInstruction)
  | Jmpx (s : ShortConditional)
  | Jmpr (l : LongConditional)
  | Ret (s : ShortConditional)
  | Reti (s : ShortConditional)
  | Sll (s : ShortInstruction)
  | Srl (s : ShortInstruction)
  | Sra (s : ShortInstruction)
  | Or (s : ShortInstruction)
  | And (s : ShortInstruction)
  | Xor (s : ShortInstruction)
  | Add (s : ShortInstruction)
  | Addc (s : ShortInstruction)
  | Sub (s : ShortInstruction)
  | Subc (s : ShortInstruction)
  | Subi (s : ShortInstruction)
  | Subci (s : ShortInstruction)
  | Ldhi (l : LongInstruction)
  | Ldxw (s : ShortInstruction)
  | Ldrw (l : LongInstruction)
  | Ldxhs (s : ShortInstruction)
  | Ldrhs (l : LongInstruction)
  | Ldxhu (s : ShortInstruction)
  | Ldrhu (l : LongInstruction)
  | Ldxbs (s : ShortInstruction)
  | Ldrbs (l : LongInstruction)
  | Ldxbu (s : ShortInstruction)
  | Ldrbu (l : LongInstruction)
  | Stxw (s : ShortInstruction)
  | Strw (l : LongInstruction)
  | Stxh (s : ShortInstruction)
  | Strh (l : LongInstruction)
  | Stxb (s : ShortInstruction)
  | Strb (l : LongInstruction)
deriving DecidableEq

/-- decode.rs: opcode errors. -/
inductive DecodeError
  | InvalidInstruction (loc opcode : Nat)
  | InvalidJumpCondition
  | CodeError (s : String)
deriving DecidableEq

/-- decode.rs `get_cond_from_opcode`: `(opcode & 0x780000) >> 18` mapped to a
conditional, `InvalidJumpCondition` otherwise. -/
def get_cond_from_opcode (opcode : Nat) : Except DecodeError Conditional :=
  match (opcode &&& 0x780000) >>> 18 with
  | 1 => .ok .Gt
  | 2 => .ok .Le
  | 3 => .ok .Ge
  | 4 => .ok .Lt
  | 5 => .ok .Hi
  | 6 => .ok .Los
  | 7 => .ok .Lonc
  | 8 => .ok .Hisc
  | 9 => .ok .Pl
  | 10 => .ok .Mi
  | 11 => .ok .Ne
  | 12 => .ok .Eq
  | 13 => .ok .Nv
  | 14 => .ok .V
  | 15 => .ok .Alw
  | _ => .error .InvalidJumpCondition

/-- decode.rs `decode`: field extraction (`dest` via `>> 18`, `rs1` via
`>> 13`, exactly as the source) and the two-level opcode match on
`op >> 5` and `op & 0xf`. -/
def decode (opcode : Nat) : Except DecodeError Instruction :=
  let scc := opcode &&& 0x1000000 != 0
  let dest := (opcode &&& 0xF80000) >>> 18
  let rs1 := (opcode &&& 0x7C000) >>> 13
  let imm19 := opcode &&& 0x7FFFF
  let short_source :=
    if opcode &&& 0x2000 != 0 then ShortSource.UImm13 (opcode &&& 0x1fff)
    else ShortSource.Reg (opcode &&& 0x1f)
  let op := (opcode &&& 0xFE000000) >>> 25
  let cond := get_cond_from_opcode opcode
  let bottom_nibble := op &&& 0xf
  match op >>> 5 with
  | 0 =>
    match bottom_nibble with
    | 0 => .error (.InvalidInstruction 0x0f opcode)
    | 1 => .ok (.Calli ⟨scc, dest, rs1, short_source⟩)
    | 2 => .ok (.GetPSW ⟨scc, dest, rs1, short_source⟩)
    | 3 => .ok (.GetIPC ⟨scc, dest, rs1, short_source⟩)
    | 4 => .ok (.PutPSW ⟨scc, dest, rs1, short_source⟩)
    | 5 | 6 | 7 => .error (.InvalidInstruction 0x0f opcode)
    | 8 => .ok (.Callx ⟨scc, dest, rs1, short_source⟩)
    | 9 => .ok (.Callr ⟨scc, dest, imm19⟩)
    | 10 | 11 => .error (.InvalidInstruction 0x0f opcode)
    | 12 => cond.map fun c => .Jmpx ⟨scc, c, rs1, short_source⟩
    | 13 => cond.map fun c => .Jmpr ⟨scc, c, imm19⟩
    | 14 => cond.map fun c => .Ret ⟨scc, c, rs1, short_source⟩
    | 15 => cond.map fun c => .Reti ⟨scc, c, rs1, short_source⟩
    | _ => .error (.CodeError ("Match bottom four bytes of opcode prefix"))
  | 1 =>
    match bottom_nibble with
    | 0 => .error (.InvalidInstruction 0x0f opcode)
    | 1 => .ok (.Sll ⟨scc, dest, rs1, short_source⟩)
    | 2 => .ok (.Sra ⟨scc, dest, rs1, short_source⟩)
    | 3 => .ok (.Srl ⟨scc, dest, rs1, short_source⟩)
    | 4 => .ok (.Ldhi ⟨scc, dest, imm19⟩)
    | 5 => .ok (.And ⟨scc, dest, rs1, short_source⟩)
    | 6 => .ok (.Or ⟨scc, dest, rs1, short_source⟩)
    | 7 => .ok (.Xor ⟨scc, dest, rs1, short_source⟩)
    | 8 => .ok (.Add ⟨scc, dest, rs1, short_source⟩)
    | 9 => .ok (.Addc ⟨scc, dest, rs1, short_source⟩)
    | 10 | 11 => .error (.InvalidInstruction 0x0f opcode)
    | 12 => .ok (.Sub ⟨scc, dest, rs1, short_source⟩)
    | 13 => .ok (.Subc ⟨scc, dest, rs1, short_source⟩)
    | 14 => .ok (.Subi ⟨scc, dest, rs1, short_source⟩)
    | 15 => .ok (.Subci ⟨scc, dest, rs1, short_source⟩)
    | _ => .error (.CodeError ("Match bottom four bytes of opcode prefix"))
  | 2 =>
    match bottom_nibble with
    | 0 | 1 | 2 | 3 | 4 | 5 => .error (.InvalidInstruction 0x0f opcode)
    | 6 => .ok (.Ldxw ⟨scc, dest, rs1, short_source⟩)
    | 7 => .ok (.Ldrw ⟨scc, dest, imm19⟩)
    | 8 => .ok (.Ldxhu ⟨scc, dest, rs1, short_source⟩)
    | 9 => .ok (.Ldrhu ⟨scc, dest, imm19⟩)
    | 10 => .ok (.Ldxhs ⟨scc, dest, rs1, short_source⟩)
    | 11 => .ok (.Ldrhs ⟨scc, dest, imm19⟩)
    | 12 => .ok (.Ldxbu ⟨scc, dest, rs1, short_source⟩)
    | 13 => .ok (.Ldrbu ⟨scc, dest, imm19⟩)
    | 14 => .ok (.Ldxbs ⟨scc, dest, rs1, short_source⟩)
    | 15 => .ok (.Ldrbs ⟨scc, dest, imm19⟩)
    | _ => .error (.CodeError ("Match bottom four bytes of opcode prefix"))
  | 3 =>
    match bottom_nibble with
    | 0 | 1 | 2 | 3 | 4 | 5 => .error (.InvalidInstruction 0x0f opcode)
    | 6 => .ok (.Stxw ⟨scc, dest, rs1, short_source⟩)
    | 7 => .ok (.Strw ⟨scc, dest, imm19⟩)
    | 8 | 9 => .error (.InvalidInstruction 0x0f opcode)
    | 10 => .ok (.Stxh ⟨scc, dest, rs1, short_source⟩)
    | 11 => .ok (.Strh ⟨scc, dest, imm19⟩)
    | 12 | 13 => .error (.InvalidInstruction 0x0f opcode)
    | 14 => .ok (.Stxb ⟨scc, dest, rs1, short_source⟩)
    | 15 => .ok (.Strb ⟨scc, dest, imm19⟩)
    | _ => .error (.CodeError ("Match bottom four bytes of opcode prefix"))
  | 4 | 5 | 6 | 7 | 8 => .error (.CodeError ("Not yet implemented!"))
  | _ => .error (.InvalidInstruction 0x8 opcode)

end decode

/-! ## Correspondence between the two Instruction types

`Instruction::encode` lives on instruction.rs's `Instruction` while `decode`
returns decode.rs's `Instruction`; the spec's round-trip equation
`decode(encode(x)) == x` therefore compares across the two types.  The
following maps are the evident constructor-wise correspondence used to state
that equation (instruction.rs `Imm13` to decode.rs `UImm13`, `GetLPC` to the
decoder's name `GetIPC`, payload fields unchanged). -/

/-- The evident bijection between the two `Conditional` types. -/
def toDecodeCond : instruction.Conditional → decode.Conditional
  | .Gt => .Gt
  | .Le => .Le
  | .Ge => .Ge
  | .Lt => .Lt
  | .Hi => .Hi
  | .Los => .Los
  | .Lonc => .Lonc
  | .Hisc => .Hisc
  | .Pl => .Pl
  | .Mi => .Mi
  | .Ne => .Ne
  | .Eq => .Eq
  | .Nv => .Nv
  | .V => .V
  | .Alw => .Alw

/-- Map an encoding-side short source to the decoding-side type. -/
def toDecodeSS : instruction.ShortSource → decode.ShortSource
  | .Reg r => .Reg r
  | .Imm13 v => .UImm13 v

/-- Map an encoding-side short instruction to the decoding-side type. -/
def toDecodeShort (s : instruction.ShortInstruction) : decode.ShortInstruction :=
  ⟨s.scc, s.dest, s.rs1, toDecodeSS s.short_source⟩

/-- Map an encoding-side long instruction to the decoding-side type. -/
def toDecodeLong (l : instruction.LongInstruction) : decode.LongInstruction :=
  ⟨l.scc, l.dest, l.imm19⟩

/-- Map an encoding-side short conditional to the decoding-side type. -/
def toDecodeShortCond (s : instruction.ShortConditional) : decode.ShortConditional :=
  ⟨s.scc, toDecodeCond s.dest, s.rs1, toDecodeSS s.short_source⟩

/-- Map an encoding-side long conditional to the decoding-side type. -/
def toDecodeLongCond (l : instruction.LongConditional) : decode.LongConditional :=
  ⟨l.scc, toDecodeCond l.dest, l.imm19⟩

/-- The evident constructor-wise correspondence between the two
`Instruction` types. -/
def toDecodeInstruction : instruction.Instruction → decode.Instruction
  | .Calli s => .Calli (toDecodeShort s)
  | .GetPSW s => .GetPSW (toDecodeShort s)
  | .GetLPC s => .GetIPC (toDecodeShort s)
  | .PutPSW s => .PutPSW (toDecodeShort s)
  | .Callx s => .Callx (toDecodeShort s)
  | .Callr l => .Callr (toDecodeLong l)
  | .Jmpx s => .Jmpx (toDecodeShortCond s)
  | .Jmpr l => .Jmpr (toDecodeLongCond l)
  | .Ret s => .Ret (toDecodeShortCond s)
  | .Reti s => .Reti (toDecodeShortCond s)
  | .Sll s => .Sll (toDecodeShort s)
  | .Srl s => .Srl (toDecodeShort s)
  | .Sra s => .Sra (toDecodeShort s)
  | .Or s => .Or (toDecodeShort s)
  | .And s => .And (toDecodeShort s)
  | .Xor s => .Xor (toDecodeShort s)
  | .Add s => .Add (toDecodeShort s)
  | .Addc s => .Addc (toDecodeShort s)
  | .Sub s => .Sub (toDecodeShort s)
  | .Subc s => .Subc (toDecodeShort s)
  | .Subi s => .Subi (toDecodeShort s)
  | .Subci s => .Subci (toDecodeShort s)
  | .Ldhi l => .Ldhi (toDecodeLong l)
  | .Ldxw s => .Ldxw (toDecodeShort s)
  | .Ldrw l => .Ldrw (toDecodeLong l)
  | .Ldxhs s => .Ldxhs (toDecodeShort s)
  | .Ldrhs l => .Ldrhs (toDecodeLong l)
  | .Ldxhu s => .Ldxhu (toDecodeShort s)
  | .Ldrhu l => .Ldrhu (toDecodeLong l)
  | .Ldxbs s => .Ldxbs (toDecodeShort s)
  | .Ldrbs l => .Ldrbs (toDecodeLong l)
  | .Ldxbu s => .Ldxbu (toDecodeShort s)
  | .Ldrbu l => .Ldrbu (toDecodeLong l)
  | .Stxw s => .Stxw (toDecodeShort s)
  | .Strw l => .Strw (toDecodeLong l)
  | .Stxh s => .Stxh (toDecodeShort s)
  | .Strh l => .Strh (toDecodeLong l)
  | .Stxb s => .Stxb (toDecodeShort s)
  | .Strb l => .Strb (toDecodeLong l)

/-! ## shifter.rs, cpu.rs OutputPins, data_path.rs -/

/-- shifter.rs: `pub struct Shifter` with input latch and shift amount. -/
structure Shifter where
  src : Nat
  s_ham : Nat
deriving DecidableEq

/-- shifter.rs `Shifter::new`. -/
def Shifter.new : Shifter := ⟨0, 0⟩

/-- cpu.rs: `pub struct OutputPins`, the CPU's output pins to memory. -/
structure OutputPins where
  address : Nat
  data : Nat
  width_code_word : Bool
  width_code_half : Bool
  read_write : Bool
  system_mode : Bool
  instr_or_data_write : Bool
deriving DecidableEq

/-- cpu.rs `OutputPins::new`. -/
def OutputPins.new : OutputPins := ⟨0, 0, false, false, false, false, false⟩

/-- cpu.rs `OutputPins::phase_two_copy`: overwrite `other` with `self`
except that `other` keeps its address. -/
def OutputPins.phase_two_copy (self other : OutputPins) : OutputPins :=
  { self with address := other.address }

/-- data_path.rs: the `Control` bit bundle. -/
structure Control where
  long : Bool
  immediate : Bool
  memory : Bool
  store : Bool
  pc_relative : Bool
  signed_load : Bool
  conditional : Bool
  dest_is_psw : Bool
deriving DecidableEq

/-- data_path.rs `Control::new`: all bits clear. -/
def Control.new : Control := ⟨false, false, false, false, false, false, false, false⟩

/-- data_path.rs `Control::init`. -/
def Control.init (long immediate memory store pc_relative signed_load
    conditional dest_is_psw : Bool) : Control :=
  ⟨long, immediate, memory, store, pc_relative, signed_load, conditional, dest_is_psw⟩

/-- data_path.rs: the `DataPath` with all latches and registers. -/
structure DataPath where
  regs : RegisterFile
  psw : ProcessorStatusWord
  dst_latch : Nat
  nxtpc : Nat
  pc : Nat
  lstpc : Nat
  output_pins : OutputPins
  alu : ALU
  shifter : Shifter
  dimm : Nat
  imm : Nat
  bar : Nat
  rd1 : Nat
  rd2 : Nat
  rd3 : Nat
  rs1_1 : Nat
  rs2_1 : Nat
  rs1_2 : Nat
  rs2_2 : Nat
  op1 : Nat
  op2 : Nat
  scc_flag1 : Bool
  scc_flag2 : Bool
  scc_flag3 : Bool
  imm_flag1 : Bool
  imm_flag2 : Bool
  control1 : Control
  control2 : Control
  control3 : Control
deriving DecidableEq

namespace DataPath

/-- data_path.rs `DataPath::new`: everything zeroed. -/
def new : DataPath where
  regs := RegisterFile.new
  psw := ProcessorStatusWord.new
  dst_latch := 0
  nxtpc := 0
  pc := 0
  lstpc := 0
  output_pins := OutputPins.new
  alu := ALU.new
  shifter := Shifter.new
  dimm := 0
  imm := 0
  bar := 0
  rd1 := 0
  rd2 := 0
  rd3 := 0
  rs1_1 := 0
  rs2_1 := 0
  rs1_2 := 0
  rs2_2 := 0
  op1 := 0
  op2 := 0
  scc_flag1 := false
  scc_flag2 := false
  scc_flag3 := false
  imm_flag1 := false
  imm_flag2 := false
  control1 := Control.new
  control2 := Control.new
  control3 := Control.new

/-- data_path.rs `commit`: write the DST latch to `rd3` at the current CWP
(`none` models the register-file index panic). -/
def commit (dp : DataPath) : Option DataPath :=
  (dp.regs.write dp.rd3 dp.dst_latch dp.psw.get_cwp).map fun r => { dp with regs := r }

/-- data_path.rs `route_regs_to_alu`: PC into `ai` when pc-relative, else the
two execute-stage source registers into `ai`/`bi` (`none` models a register
read panic). -/
def route_regs_to_alu (dp : DataPath) : Option DataPath :=
  if dp.control1.pc_relative then
    some { dp with alu := { dp.alu with ai := dp.pc } }
  else do
    let read1 ← dp.regs.read dp.rs1_2 dp.psw.get_cwp
    let read2 ← dp.regs.read dp.rs2_2 dp.psw.get_cwp
    some { dp with alu := ⟨read1, read2⟩ }

/-- data_path.rs `set_input_pins`: latch a fetched word into the decode-stage
latches. -/
def set_input_pins (dp : DataPath) (value : Nat) : DataPath :=
  { dp with
    dimm := value
    op1 := (value &&& 0xFE000000) >>> 25
    imm_flag1 := value &&& SHORT_SOURCE_TYPE_LOC != 0
    scc_flag1 := value &&& SCC_LOC != 0
    rd1 := (value &&& DEST_LOC) >>> 19
    rs1_1 := (value &&& RS1_LOC) >>> 14
    rs2_1 := value &&& RS2_LOC
    imm := value &&& IMM19_LOC }

/-- data_path.rs `get_out_address`. -/
def get_out_address (dp : DataPath) : Nat := dp.output_pins.address

/-- data_path.rs `route_imm_to_alu`: DIMM into `bi` when immediate. -/
def route_imm_to_alu (dp : DataPath) : DataPath :=
  if dp.control1.immediate then { dp with alu := { dp.alu with bi := dp.dimm } }
  else dp

/-- data_path.rs `shift_pipeline_latches`: move stage 2 to 3 and 1 to 2; the
DIMM re-materialisation reads the just-updated `control2` (the incoming
instruction's control bits) and, in the short case, computes
`imm & SHORT_IMM_SIGNEXT_BITS` when the immediate's bit 12 is set. -/
def shift_pipeline_latches (dp : DataPath) : DataPath :=
  let control3 := dp.control2
  let control2 := dp.control1
  let dimm :=
    if control2.long then dp.imm <<< 13
    else if dp.imm &&& SHORT_IMM_SIGN_LOC != 0 then dp.imm &&& SHORT_IMM_SIGNEXT_BITS
    else dp.imm
  { dp with
    control3 := control3
    control2 := control2
    rd3 := dp.rd2
    rd2 := dp.rd1
    rs1_2 := dp.rs1_1
    rs2_2 := dp.rs2_1
    scc_flag3 := dp.scc_flag2
    scc_flag2 := dp.scc_flag1
    imm_flag2 := dp.imm_flag1
    op2 := dp.op1
    dimm := dimm }

/-- data_path.rs `test_conditional`: evaluate the 4-bit code in `rd2` against
the PSW condition codes; every unlisted code (including 0) yields `false`. -/
def test_conditional (dp : DataPath) : Bool :=
  let n := dp.psw.get_cc_neg
  let v := dp.psw.get_cc_overflow
  let z := dp.psw.get_cc_zero
  let c := dp.psw.get_cc_carry
  match dp.rd2 &&& 0xf with
  | 1 => !(Bool.xor n v || z)
  | 2 => Bool.xor n v || z
  | 3 => !(Bool.xor n v)
  | 4 => Bool.xor n v
  | 5 => !(!c || z)
  | 6 => !c || z
  | 7 => !c
  | 8 => c
  | 9 => !n
  | 10 => n
  | 11 => !z
  | 12 => z
  | 13 => !v
  | 14 => v
  | 15 => true
  | _ => false

/-- data_path.rs `decode`: derive `control1` from the latched instruction
word.  The bit tests are transcribed with Rust's operator precedence, under
which `instruction & (0b11 << 6) >> 6` is `instruction & 0b11` and so on.
The function also builds an `InstructionCycle` return value; that type is
absent from src/ (per the spec it is the 4-tuple of per-phase callbacks) and
the only value ever constructed is the no-op cycle, which the sequencer
discards, so it is omitted here. -/
def decode (dp : DataPath) : DataPath :=
  let instruction := dp.dimm
  let memory := (instruction &&& ((0b11 <<< 6) >>> 6)) == 1
  let store := (instruction &&& ((0b111 <<< 5) >>> 5)) == 0b11
  let pc_relative := (memory && ((instruction &&& 1) == 1)) ||
    (((instruction &&& 0b11) == 0b01) && ((instruction &&& (0b1111 <<< 3)) == 1))
  let signed_load := ((instruction &&& (0b1111 <<< 3)) == 0b0101) &&
    ((instruction &&& 0b10) == 0b10)
  let conditional := (instruction &&& (0b11111 <<< 2)) == 0b00011
  let opcode := (instruction &&& OPCODE_LOC) >>> 25
  let trip : Bool × Bool × Bool :=
    match opcode >>> 4 with
    | 0 =>
      match opcode &&& 0xf with
      | 4 => (false, false, true)
      | 9 => (true, true, false)
      | 13 => (true, true, false)
      | _ => (false, false, false)
    | _ => (false, false, false)
  let long := trip.1
  let dst_is_psw := trip.2.2
  let immediate :=
    if trip.2.1 then trip.2.1 else (instruction &&& SHORT_SOURCE_TYPE_LOC) == 0
  { dp with
    control1 := Control.init long immediate memory store pc_relative
      signed_load conditional dst_is_psw }

/-- data_path.rs `current_instruction_is_memory`. -/
def current_instruction_is_memory (dp : DataPath) : Bool := dp.control2.memory

end DataPath

/-! ## clock.rs and system.rs -/

/-- clock.rs: the phases of the four-phase non-overlapping clock. -/
inductive Phase
  | One | Two | Three | Four | Interrupt
deriving DecidableEq

/-- clock.rs: `pub struct Clock`; only the rate and cycle counter are
modelled (the pacing sleep has no observable state). -/
structure Clock where
  rate : Nat
  count : Nat
deriving DecidableEq

/-- clock.rs `tick_and_wait`: increment the counter in Phase One (the
wall-clock pacing sleep is not modelled). -/
def Clock.tick_and_wait (c : Clock) (phase : Phase) : Clock :=
  match phase with
  | .One => { c with count := c.count + 1 }
  | _ => c

/-- Observable sequencer actions of one tick, used to state the stall rule:
the pipeline-latch shift, the four per-phase callbacks (`cycle_ops[i]`), the
commit, and the decode step. -/
inductive SysEvent
  | latch_shift
  | callback (i : Nat)
  | commit
  | decode_step
deriving DecidableEq

/-- system.rs: `pub struct System`.  The `cycle_ops` field is omitted:
`InstructionCycle` is absent from src/ (per the spec, section 4.10, it is a
4-tuple of per-phase callbacks with a no-op cycle for bubbles); the system is
constructed with the no-op cycle and never reassigns it (the result of
`dp.decode()` in phase Four is discarded), so invoking `cycle_ops[i]` is
modelled as emitting `SysEvent.callback i` with no state change. -/
structure System where
  data_path : DataPath
  mem : Memory
  clock : Clock
  phase : Phase
  pins_out : OutputPins
  pipeline_suspended : Bool

namespace System

/-- system.rs tick, phase Three: the fetched word on success, 0 on a memory
error (the source also prints a diagnostic in that case). -/
def fetched_or_zero (w : Except Unit Nat) : Nat :=
  match w with
  | .ok v => v
  | .error _ => 0

/-- system.rs `System::tick`: one clock phase.  Returns the successor state
and the list of observable actions taken; `none` models a Rust panic (a
register-file index or memory slice out of bounds). -/
def tick (s : System) : Option (System × List SysEvent) :=
  let clock := s.clock.tick_and_wait s.phase
  match s.phase with
  | .One =>
    if !s.pipeline_suspended then do
      let dp := s.data_path.shift_pipeline_latches
      let dp ← dp.route_regs_to_alu
      some ({ s with clock := clock, data_path := dp, phase := .Two },
            [.latch_shift, .callback 0])
    else
      some ({ s with clock := clock, phase := .Two }, [])
  | .Two =>
    let pins_out := s.data_path.output_pins.phase_two_copy s.pins_out
    if !s.pipeline_suspended then
      let dp := s.data_path.route_imm_to_alu
      some ({ s with clock := clock, data_path := dp, pins_out := pins_out, phase := .Three },
            [.callback 1])
    else
      some ({ s with clock := clock, pins_out := pins_out, phase := .Three }, [])
  | .Three => do
    let w ← s.mem.get_word s.pins_out.address
    let dp := s.data_path.set_input_pins (fetched_or_zero w)
    if s.pipeline_suspended then
      some ({ s with clock := clock, data_path := dp, pipeline_suspended := false, phase := .Four },
            [])
    else if dp.current_instruction_is_memory then do
      let dp ← dp.commit
      some ({ s with clock := clock, data_path := dp, pipeline_suspended := true, phase := .Four },
            [.commit])
    else do
      let dp ← dp.commit
      some ({ s with clock := clock, data_path := dp, phase := .Four },
            [.commit, .callback 2])
  | .Four =>
    let pins_out := { s.pins_out with address := s.data_path.get_out_address }
    if !s.pipeline_suspended then
      let dp := s.data_path.decode
      some ({ s with clock := clock, data_path := dp, pins_out := pins_out, phase := .One },
            [.callback 3, .decode_step])
    else
      some ({ s with clock := clock, pins_out := pins_out, phase := .One }, [])
  | .Interrupt =>
    some ({ s with clock := clock, phase := .One }, [])

/-- Iterate `tick`, concatenating the emitted actions. -/
def run : Nat → System → Option (System × List SysEvent)
  | 0, s => some (s, [])
  | n + 1, s => do
    let p ← s.tick
    let q ← run n p.1
    some (q.1, p.2 ++ q.2)

end System

/-! ## Concrete states used by the claims -/

/-- C1's failing instruction: `Calli{scc: false, dest: 1, rs1: 0, Reg(0)}`. -/
def c1_failing_instruction : instruction.Instruction :=
  .Calli ⟨false, 1, 0, .Reg 0⟩

/-- C8's datapath: a reset datapath whose 13-bit immediate has bit 12 set
(`IMM = 0x1FFF`) and whose incoming instruction is short format. -/
def c8_dp : DataPath := { DataPath.new with imm := 0x1FFF }

/-- C7's datapath: a reset datapath with a memory access in the execute
stage. -/
def c7_dp : DataPath := { DataPath.new with control2 := { Control.new with memory := true } }

/-- C7's sequencer state: phase Three, pipeline not suspended, a memory
access in the execute stage, 16 bytes of zeroed memory. -/
def c7_state : System where
  data_path := c7_dp
  mem := Memory.from_size 16
  clock := ⟨0, 0⟩
  phase := .Three
  pins_out := OutputPins.new
  pipeline_suspended := false

/-- The state after C7's stalling phase-Three tick. -/
def c7_s1 : System := (c7_state.tick.map Prod.fst).getD c7_state

/-- One tick after `c7_s1` (the suspended phase Four). -/
def c7_s2 : System := (c7_s1.tick.map Prod.fst).getD c7_state

/-- One tick after `c7_s2` (the suspended phase One). -/
def c7_s3 : System := (c7_s2.tick.map Prod.fst).getD c7_state

/-- One tick after `c7_s3` (the suspended phase Two). -/
def c7_s4 : System := (c7_s3.tick.map Prod.fst).getD c7_state

/-- One tick after `c7_s4` (the suspended phase Three, which clears the
suspend flag). -/
def c7_s5 : System := (c7_s4.tick.map Prod.fst).getD c7_state

/-- The register file produced by C9's witness write. -/
def c9_rf : RegisterFile := (RegisterFile.new.write 5 42 0).getD RegisterFile.new

/-! ## Helper lemmas -/

/-- `set_input_pins` leaves the execute-stage control latch unchanged. -/
theorem set_input_pins_control2 (dp : DataPath) (v : Nat) :
    (dp.set_input_pins v).control2 = dp.control2 := rfl

/-- `current_instruction_is_memory` after `set_input_pins` is the latched
execute-stage memory bit. -/
theorem current_is_memory_set_input_pins (dp : DataPath) (v : Nat) :
    (dp.set_input_pins v).current_instruction_is_memory = dp.control2.memory := rfl

/-- Reading slot 0 after forcing it to 0 yields 0. -/
theorem get?_set_zero (l : List Nat) (h : 0 < l.length) :
    (l.set 0 0).get? 0 = some 0 := by
  cases l with
  | nil => simp at h
  | cons a t => rfl

/-- Setting slot 0 to the value it already holds is the identity. -/
theorem set_zero_of_get? (l : List Nat) (h : l.get? 0 = some 0) :
    l.set 0 0 = l := by
  cases l with
  | nil => rfl
  | cons a t =>
    simp only [List.get?] at h
    injection h with h
    simp [List.set, h]

/-! ## Claim theorems -/

/-- C1: the claim `decode(encode(x)) == x` fails on the code.  For the valid
instruction `Calli{scc: false, dest: 1, rs1: 0, Reg(0)}`, `encode` produces
`0x02080000`, but `decode` extracts the destination with a shift by 18 instead
of 19 and returns `dest = 2`; the decoded value therefore differs from the
image of the input under the evident correspondence between the two
`Instruction` types. -/
theorem claim_C1_decode_encode_mismatch :
    c1_failing_instruction.encode = 0x02080000 ∧
    decode.decode 0x02080000 = .ok (.Calli ⟨false, 2, 0, .Reg 0⟩) ∧
    toDecodeInstruction c1_failing_instruction ≠
      decode.Instruction.Calli ⟨false, 2, 0, .Reg 0⟩ :=
  ⟨rfl, rfl, by decide⟩

/-- C2: the claim that `push()` sets CWP to (CWP − 1) mod 8 and `pop()` sets
CWP to (CWP + 1) mod 8 fails on the code: neither function ever writes CWP.
Starting from CWP = 2, SWP = 0, `push` leaves CWP at 2 (the claim expects 1)
and `pop` leaves CWP at 2 (the claim expects 3). -/
theorem claim_C2_push_pop_never_move_cwp :
    ((ProcessorStatusWord.init 2 0 false false false false false false false).push).get_cwp = 2 ∧
    ((ProcessorStatusWord.init 2 0 false false false false false false false).pop).get_cwp = 2 :=
  ⟨rfl, rfl⟩

/-- C3: the set-then-get round trip for the condition-code flags fails on the
code: `set_cc_carry` shifts the value by the mask constant `CARRY_LOC` (= 1)
instead of placing it at bit 0, so on a zero PSW `set_cc_carry(true)` leaves
the carry flag reading `false` and instead flips the overflow flag. -/
theorem claim_C3_cc_setter_wrong_bit :
    ((ProcessorStatusWord.new).set_cc_carry true).get_cc_carry = false ∧
    ((ProcessorStatusWord.new).set_cc_carry true).get_cc_overflow = true :=
  ⟨rfl, rfl⟩

/-- C4: the claim that every access with address in 0..=31 and cwp in 0..=7
stays inside the 138-register backing array fails on the code: address 16
with cwp 7 maps to flat index `16 * 7 + 16 + 10 = 138`, one past the end, and
the read panics (modelled as `none`). -/
theorem claim_C4_window_mapping_out_of_bounds :
    RegisterFile.get_real_address 16 7 = .ok 138 ∧
    NUM_GLOBALS + NUM_WINDOW_REGISTERS = 138 ∧
    RegisterFile.new.read 16 7 = none :=
  ⟨rfl, rfl, rfl⟩

/-- C5: the half-word round trip fails on the code: on a 16-byte memory,
`set_hword(0, 0x1234)` succeeds and returns the value written, but
`get_hword(0)` on the resulting memory returns an error — it slices a single
byte (`addr..addr + 1`) and the conversion to a two-byte array always
fails. -/
theorem claim_C5_get_hword_always_errors :
    (Memory.from_size 16).set_hword 0 0x1234 =
      .ok (⟨[0x12, 0x34, 0, 0, 0, 0, 0, 0, 0, 0, 0, 0, 0, 0, 0, 0]⟩, 0x1234) ∧
    (Memory.mk [0x12, 0x34, 0, 0, 0, 0, 0, 0, 0, 0, 0, 0, 0, 0, 0, 0]).get_hword 0 =
      .error () :=
  ⟨rfl, rfl⟩

/-- C6: the claim that every ALU operation's plain form agrees with the
result component of its SCC form fails for `subci`: with `ai = 0`, `bi = 5`,
`carry = false`, the plain form computes `bi − ai − !carry = 4` while the SCC
form's result component is `bi − ai + carry = 5`. -/
theorem claim_C6_subci_disagrees_with_scc_form :
    (ALU.mk 0 5).subci false = 4 ∧ ((ALU.mk 0 5).subci_scc false).1 = 5 :=
  ⟨rfl, rfl⟩

set_option maxRecDepth 100000 in
/-- C7 (counterexample): the claim that the φ₁…φ₄ sequence following a memory
stall runs no per-phase callbacks is false.  From the concrete state
`c7_state` (phase Three, memory access in execute), the stalling tick and the
remaining φ₄ run first (`run 2`); the following φ₁…φ₄ sequence (`run 4`) then
emits `callback 3` and the decode step in its φ₄. -/
theorem claim_C7_following_cycle_runs_callback :
    ((c7_state.run 2).bind fun p => (p.1.run 4).map fun q => q.2) =
      some [SysEvent.callback 3, SysEvent.decode_step] ∧
    SysEvent.callback 3 ∈ [SysEvent.callback 3, SysEvent.decode_step] :=
  ⟨rfl, by decide⟩

/-- C7 (amended): when the execute-stage instruction is a memory access and
the pipeline is not suspended, the phase-Three tick commits (and emits only
the commit) and raises the suspend flag; the suspension covers the remaining
φ₄ of that cycle and φ₁–φ₃ of the next cycle, whose four ticks perform no
latch shift, no callback, and no commit; the next φ₄ tick already resumes
normally, running its callback and the decode step. -/
theorem claim_C7_stall_spans_phase_four_to_three :
    ∀ (dp : DataPath) (mem : Memory) (clk : Clock) (pins : OutputPins)
      (s1 s2 s3 s4 s5 : System) (e1 e2 e3 e4 e5 : List SysEvent),
      dp.control2.memory = true →
      System.tick ⟨dp, mem, clk, .Three, pins, false⟩ = some (s1, e1) →
      s1.tick = some (s2, e2) →
      s2.tick = some (s3, e3) →
      s3.tick = some (s4, e4) →
      s4.tick = some (s5, e5) →
      (e1 = [SysEvent.commit] ∧ s1.pipeline_suspended = true ∧ s1.phase = Phase.Four) ∧
      (e2 = [] ∧ e3 = [] ∧ e4 = [] ∧ e5 = []) ∧
      (s5.phase = Phase.Four ∧ s5.pipeline_suspended = false ∧
        (s5.tick.map fun p => p.2) = some [SysEvent.callback 3, SysEvent.decode_step]) := by
  intro dp mem clk pins s1 s2 s3 s4 s5 e1 e2 e3 e4 e5 hmem h1 h2 h3 h4 h5
  rw [System.tick] at h1
  simp only at h1
  cases hw : mem.get_word pins.address with
  | none => rw [hw] at h1; simp at h1
  | some w =>
  rw [hw] at h1
  simp only [Option.bind_eq_bind, Option.some_bind] at h1
  rw [current_is_memory_set_input_pins, hmem] at h1
  rw [if_neg (by simp), if_pos rfl] at h1
  cases hc : (dp.set_input_pins (System.fetched_or_zero w)).commit with
  | none => rw [hc] at h1; simp at h1
  | some dp2 =>
  rw [hc] at h1
  simp only [Option.bind_eq_bind, Option.some_bind, Option.some.injEq, Prod.mk.injEq] at h1
  obtain ⟨hs1, he1⟩ := h1
  subst hs1
  refine ⟨⟨he1.symm, rfl, rfl⟩, ?_⟩
  rw [System.tick] at h2
  simp only at h2
  rw [if_neg (by simp)] at h2
  rw [Option.some.injEq, Prod.mk.injEq] at h2
  obtain ⟨hs2, he2⟩ := h2
  subst hs2
  rw [System.tick] at h3
  simp only at h3
  rw [if_neg (by simp)] at h3
  rw [Option.some.injEq, Prod.mk.injEq] at h3
  obtain ⟨hs3, he3⟩ := h3
  subst hs3
  rw [System.tick] at h4
  simp only at h4
  rw [if_neg (by simp)] at h4
  rw [Option.some.injEq, Prod.mk.injEq] at h4
  obtain ⟨hs4, he4⟩ := h4
  subst hs4
  rw [System.tick] at h5
  simp only at h5
  cases hw4 : Memory.get_word mem
      (OutputPins.phase_two_copy dp2.output_pins
        { pins with address := dp2.get_out_address }).address with
  | none => rw [hw4] at h5; simp at h5
  | some w4 =>
  rw [hw4] at h5
  simp only [Option.bind_eq_bind, Option.some_bind] at h5
  rw [if_pos trivial] at h5
  rw [Option.some.injEq, Prod.mk.injEq] at h5
  obtain ⟨hs5, he5⟩ := h5
  subst hs5
  refine ⟨⟨he2.symm, he3.symm, he4.symm, he5.symm⟩, rfl, rfl, ?_⟩
  rw [System.tick]
  simp only
  rw [if_pos (by simp)]
  rfl

set_option maxRecDepth 100000 in
/-- Witness for C7's amended theorem: the hypotheses hold at the concrete
state `c7_state`, and the conclusion follows by applying the theorem there. -/
theorem claim_C7_stall_witness :
    (([SysEvent.commit] : List SysEvent) = [SysEvent.commit] ∧
      c7_s1.pipeline_suspended = true ∧ c7_s1.phase = Phase.Four) ∧
    (([] : List SysEvent) = [] ∧ ([] : List SysEvent) = [] ∧
      ([] : List SysEvent) = [] ∧ ([] : List SysEvent) = []) ∧
    (c7_s5.phase = Phase.Four ∧ c7_s5.pipeline_suspended = false ∧
      (c7_s5.tick.map fun p => p.2) = some [SysEvent.callback 3, SysEvent.decode_step]) :=
  claim_C7_stall_spans_phase_four_to_three c7_dp (Memory.from_size 16) ⟨0, 0⟩
    OutputPins.new c7_s1 c7_s2 c7_s3 c7_s4 c7_s5
    [SysEvent.commit] [] [] [] [] rfl rfl rfl rfl rfl rfl

/-- C8: the claim that a short-format immediate with bit 12 set is
sign-extended into DIMM fails on the code: `shift_pipeline_latches` computes
`imm & SHORT_IMM_SIGNEXT_BITS`, which *clears* the low 13 bits instead of
setting the high 19, so the immediate `0x1FFF` (sign extension would give
`0xFFFFFFFF = 0x1FFF ||| SHORT_IMM_SIGNEXT_BITS`) yields `DIMM = 0`. -/
theorem claim_C8_short_immediate_not_sign_extended :
    (c8_dp.shift_pipeline_latches).dimm = 0 ∧
    (0x1FFF ||| SHORT_IMM_SIGNEXT_BITS) = 0xFFFFFFFF :=
  ⟨rfl, rfl⟩

/-- C9: after any completed `RegisterFile::write`, register 0 reads back as 0
(for any window pointer), and a write addressed to register 0 on a register
file whose slot 0 already holds 0 is a no-op. -/
theorem claim_C9_register_zero_hardwired :
    (∀ (rf : RegisterFile) (address value cwp cwp2 : Nat) (rf' : RegisterFile),
        rf.write address value cwp = some rf' → rf'.read 0 cwp2 = some 0) ∧
    (∀ (rf : RegisterFile) (value cwp : Nat),
        rf.regs.get? 0 = some 0 → rf.write 0 value cwp = some rf) := by
  constructor
  · intro rf address value cwp cwp2 rf' h
    rw [RegisterFile.write] at h
    have tail : ∀ l : List Nat,
        ((setIdx? l 0 0).map fun l2 => RegisterFile.mk l2) = some rf' →
        rf'.read 0 cwp2 = some 0 := by
      intro l hl
      cases hs2 : setIdx? l 0 0 with
      | none => rw [hs2] at hl; exact absurd hl (by simp)
      | some l2 =>
        rw [hs2] at hl
        simp only [Option.map_some', Option.some.injEq] at hl
        subst hl
        rw [setIdx?] at hs2
        split at hs2
        · injection hs2 with hs2
          subst hs2
          exact get?_set_zero l (by assumption)
        · exact absurd hs2 (by simp)
    cases hra : RegisterFile.get_real_address address cwp with
    | ok a =>
      rw [hra] at h
      simp only at h
      cases hs : setIdx? rf.regs a value with
      | none => rw [hs] at h; exact absurd h (by simp)
      | some l =>
        rw [hs] at h
        simp only [Option.some_bind] at h
        exact tail l h
    | error e =>
      rw [hra] at h
      simp only [Option.some_bind] at h
      exact tail rf.regs h
  · intro rf value cwp h
    have hlen : 0 < rf.regs.length := by
      cases hl : rf.regs with
      | nil => rw [hl] at h; simp at h
      | cons a t => simp [hl]
    show ((setIdx? rf.regs 0 value).bind
      fun l => (setIdx? l 0 0).map fun l2 => RegisterFile.mk l2) = some rf
    rw [setIdx?, if_pos hlen]
    simp only [Option.some_bind]
    simp only [setIdx?, List.length_set]
    rw [if_pos hlen]
    simp only [Option.map_some', Option.some.injEq]
    rw [List.set_set, set_zero_of_get? rf.regs h]

set_option maxRecDepth 100000 in
/-- Witness for C9: both parts applied at concrete inputs — a write to
register 5 of a fresh file leaves register 0 reading 0, and a write to
register 0 is discarded. -/
theorem claim_C9_witness :
    c9_rf.read 0 3 = some 0 ∧
    RegisterFile.new.write 0 99 2 = some RegisterFile.new :=
  ⟨claim_C9_register_zero_hardwired.1 RegisterFile.new 5 42 0 3 c9_rf rfl,
   claim_C9_register_zero_hardwired.2 RegisterFile.new 99 2 rfl⟩

/-- C10: `test_conditional` is a total function of the datapath state, and
whenever the low four bits of the `rd2` latch are zero it returns `false` —
the invalid condition code is silently treated as never-taken. -/
theorem claim_C10_zero_condition_never_taken :
    ∀ dp : DataPath, dp.rd2 &&& 0xf = 0 → dp.test_conditional = false := by
  intro dp h
  unfold DataPath.test_conditional
  rw [h]

/-- Witness for C10: the reset datapath has `rd2 = 0` and its conditional
test evaluates to `false`. -/
theorem claim_C10_witness :
    DataPath.new.rd2 &&& 0xf = 0 ∧ DataPath.new.test_conditional = false :=
  ⟨rfl, claim_C10_zero_condition_never_taken DataPath.new rfl⟩

end Riscii
